import Mathlib

/-!
Shallow embedding of src/proxyServer/live555ProxyServer.cpp (the LIVE555
proxy-server orchestration layer): command-line argument parsing, RTSP-server
creation with port fallback, definition-file loading and session registration.

Strings are modelled as lists of characters.  C strings (argv tokens) are
null-terminated, so reading the character at an index that is at or past the
end of the token yields the null character; the helpers below reproduce that.
The external streaming engine (RTSPServer::createNew) is modelled as an
oracle saying which ports can be bound, and the filesystem as an oracle from
paths to optional line lists.
-/

namespace RtspProxy

/-- Convert a Lean string literal to the character-list representation used
throughout the model. -/
def chars (s : String) : List Char := s.data

/-- The null character, the value read past the end of a C string. -/
def nullChar : Char := Char.ofNat 0

/-- Character at index 0 of a C string (the null character when the token is
empty), as in the argv[k][0] and line.front() reads of the source. -/
def headD0 (s : List Char) : Char := s.headD nullChar

/-- Character at index 1 of a C string (null when the token has length at
most 1), as in the opt[1] read of the source inside the option switch. -/
def at1D0 (s : List Char) : Char := (s.drop 1).headD nullChar

/-- C isspace for the default locale, used by the numeric conversion of sscanf to
skip leading white space. -/
def isSpaceC (c : Char) : Bool :=
  c = ' ' || c = '\t' || c = '\n' || c = Char.ofNat 11 || c = Char.ofNat 12 || c = '\r'

/-- C isdigit: the decimal digits. -/
def isDigitC (c : Char) : Bool :=
  48 ≤ c.toNat && c.toNat ≤ 57

/-- Value of a string of decimal digits, most significant first. -/
def digitsToNat (ds : List Char) : Nat :=
  ds.foldl (fun a c => a * 10 + (c.toNat - 48)) 0

/-- Reduction of a parsed nonnegative value to the unsigned 16-bit object
written by the %hu conversion. -/
def toU16 (n : Nat) : Nat := n % 65536

/-- Reduction of a parsed negated value to the unsigned 16-bit object written
by the %hu conversion (strtoul negates modulo the range of the type). -/
def negU16 (n : Nat) : Nat := (65536 - n % 65536) % 65536

/-- The digit-consuming tail of the %hu conversion of sscanf: take the maximal
leading run of decimal digits; no digit is a matching failure, otherwise the
value of the digits is converted (trailing characters are left unread). -/
def scanDigits (s : List Char) (conv : Nat → Nat) : Option Nat :=
  let ds := s.takeWhile isDigitC
  if ds = [] then none else some (conv (digitsToNat ds))

/-- Model of sscanf(tok, "%hu", &x) succeeding: skip leading white space, an
optional sign, then a nonempty run of decimal digits whose value is stored
into the unsigned 16-bit object (reduced modulo 65536); none models a return
value other than 1, on which the source calls usage(). -/
def scanHU (s : List Char) : Option Nat :=
  match s.dropWhile isSpaceC with
  | [] => none
  | c :: r =>
    if c = '+' then scanDigits r toU16
    else if c = '-' then scanDigits r negU16
    else scanDigits (c :: r) toU16

/-- The configuration produced by a successful pass over the command line:
verbosityLevel and rtspServerPortNum as set by the option loop (defaults 0
and 554), and the definition-file path argv[1] left after the loop. -/
structure Config where
  verbosityLevel : Nat
  rtspServerPortNum : Nat
  filePath : List Char
  deriving Repr, DecidableEq

/-- The option-processing while loop of main (lines 66-115): consume tokens
beginning with a dash, dispatching on the character after the dash; stop at
the first token that does not begin with a dash; none models a call to
usage(), which exits the process with status 1. -/
def parseLoop : Nat → Nat → List (List Char) → Option (Nat × Nat × List (List Char))
  | verb, port, [] => some (verb, port, [])
  | verb, port, opt :: rest =>
    if headD0 opt ≠ '-' then some (verb, port, opt :: rest)
    else if at1D0 opt = 'v' then parseLoop 1 port rest
    else if at1D0 opt = 'V' then parseLoop 2 port rest
    else if at1D0 opt = 'p' then
      match rest with
      | [] => none
      | t :: rest2 =>
        if headD0 t = '-' then none
        else
          match scanHU t with
          | none => none
          | some v => if 0 < v then parseLoop verb v rest2 else none
    else none

/-- The argument-checking phase of main (lines 63-117): args is argv without
the program name; usage() (modelled as none) when no arguments were given,
then the option loop, then usage() again when no token remains to serve as
the definition-file path; otherwise the configuration with argv[1] as the
path. -/
def parseArgs (args : List (List Char)) : Option Config :=
  if args = [] then none
  else
    match parseLoop 0 554 args with
    | none => none
    | some (verb, port, remaining) =>
      match remaining with
      | [] => none
      | f :: _ => some ⟨verb, port, f⟩

/-- Server creation with port fallback (lines 122-139).  bind is the oracle
for RTSPServer::createNew succeeding on a port.  Returns the list of ports
attempted in order, together with Except.ok of the bound port or
Except.error 1 for the exit(1) after the final failure diagnostic. -/
def bootstrap (bind : Nat → Bool) (p : Nat) : List Nat × Except Nat Nat :=
  if bind p then ([p], Except.ok p)
  else if p ≠ 554 then
    if bind 554 then ([p, 554], Except.ok 554) else ([p, 554], Except.error 1)
  else ([p], Except.error 1)

/-- Index of the first space character of a line, as returned by
line.find(" "); none models std::string::npos. -/
def findSpace (s : List Char) : Option Nat := s.findIdx? (fun c => c = ' ')

/-- Processing of one definition-file line (lines 148-173): skip the line
when its first character is the comment mark (line.front() on an empty line
reads the terminating null character of the buffer) or when the line is
empty; otherwise produce the pair passed to
ProxyServerMediaSession::createNew.  The proxied stream URL argument is
line.c_str(), the entire line; the published stream name is
line.substr(pos + 1), which for pos = npos wraps around to substr(0), the
entire line again.  (The local variable url = line.substr(0, pos) in the
source is computed but never used.) -/
def processLine (line : List Char) : Option (List Char × List Char) :=
  if headD0 line = '#' then none
  else if line = [] then none
  else
    let name :=
      match findSpace line with
      | some pos => line.drop (pos + 1)
      | none => line
    some (line, name)

/-- The definition-file loop (lines 148-174): one session-creation call per
non-skipped line, in file order, each receiving the (proxiedStreamURL,
streamName) pair of processLine. -/
def loadSessions (lines : List (List Char)) : List (List Char × List Char) :=
  lines.filterMap processLine

/-- State of the process when it enters the event loop of the engine. -/
structure RunState where
  boundPort : Nat
  sessions : List (List Char × List Char)
  eventLoopEntered : Bool
  deriving Repr, DecidableEq

/-- The whole of main after environment setup (lines 63-183): parse the
arguments, create the server with fallback, open the definition file (fs is
the filesystem oracle; none models input.is_open() being false, on which the
registration block is skipped without any error), register the sessions, and
enter the event loop.  Except.error is process exit with that status. -/
def runMain (bind : Nat → Bool) (fs : List Char → Option (List (List Char)))
    (args : List (List Char)) : Except Nat RunState :=
  match parseArgs args with
  | none => Except.error 1
  | some cfg =>
    match (bootstrap bind cfg.rtspServerPortNum).2 with
    | Except.error n => Except.error n
    | Except.ok port =>
      let sessions :=
        match fs cfg.filePath with
        | none => []
        | some fileLines => loadSessions fileLines
      Except.ok ⟨port, sessions, true⟩

/-- Spec-side reading of a port token, named from the words of the spec: the token
following -p must be a (decimal) numeric positive integer.  Used only to
contrast the acceptance condition of the spec with the sscanf-based
condition of the source. -/
def specPosIntToken (s : List Char) : Bool :=
  decide (s ≠ []) && s.all isDigitC && decide (0 < digitsToNat s)

/-- Characterization of argument vectors that contain no definition-file
token: every token either begins with a dash or is positioned as the
parameter of a -p option.  Such a vector can never leave a token behind for
the option loop to break on. -/
def onlyFlagTokens : List (List Char) → Bool
  | [] => true
  | a :: rest =>
    headD0 a = '-' &&
      (if at1D0 a = 'p' then
        match rest with
        | [] => true
        | t :: rest2 =>
          if headD0 t = '-' then onlyFlagTokens (t :: rest2)
          else onlyFlagTokens rest2
      else onlyFlagTokens rest)

end RtspProxy

namespace RtspProxy

theorem isDigitC_not_space (c : Char) (h : isDigitC c = true) : isSpaceC c = false := by
  by_contra hs
  rw [Bool.not_eq_false] at hs
  simp only [isSpaceC, Bool.or_eq_true, decide_eq_true_eq] at hs
  rcases hs with ((((rfl | rfl) | rfl) | rfl) | rfl) | rfl <;> exact absurd h (by decide)

theorem isDigitC_ne_plus (c : Char) (h : isDigitC c = true) : c ≠ '+' := by
  rintro rfl; exact absurd h (by decide)

theorem isDigitC_ne_minus (c : Char) (h : isDigitC c = true) : c ≠ '-' := by
  rintro rfl; exact absurd h (by decide)

theorem scanHU_digits (t : List Char) (ht : t ≠ []) (hd : t.all isDigitC = true) :
    scanHU t = some (digitsToNat t % 65536) := by
  cases t with
  | nil => exact absurd rfl ht
  | cons c r =>
    have hall := hd
    simp only [List.all_cons, Bool.and_eq_true] at hall
    have hc : isDigitC c = true := hall.1
    have hdrop : List.dropWhile isSpaceC (c :: r) = c :: r := by
      rw [List.dropWhile_cons]
      simp [isDigitC_not_space c hc]
    have htake : List.takeWhile isDigitC (c :: r) = c :: r := by
      rw [List.takeWhile_eq_self_iff]
      intro x hx
      exact (List.all_eq_true.mp hd) x hx
    rw [scanHU, hdrop]
    simp only [isDigitC_ne_plus c hc, isDigitC_ne_minus c hc, if_false]
    rw [scanDigits, htake]
    simp [toU16]

/-- C1: on the scenario line of the spec the loader makes exactly one
session-creation call whose streamName is the post-separator substring, but
whose proxiedStreamURL is the entire line (line.c_str()), not the
pre-separator substring the claim requires. -/
theorem C1_sourceURL_is_entire_line :
    loadSessions [chars (r"rtsp://cam1.example.com/stream mycam")] =
      [(chars (r"rtsp://cam1.example.com/stream mycam"), chars (r"mycam"))] ∧
    chars (r"rtsp://cam1.example.com/stream mycam") ≠
      chars (r"rtsp://cam1.example.com/stream") :=
  ⟨by decide, by decide⟩

/-- C2 counterexample: on a line with no whitespace separator the published
name passed to session creation is the entire line, which is not the empty
string, contradicting the claim that an empty publishedName is passed. -/
theorem C2_empty_name_counterexample :
    processLine (chars (r"rtsp://cam1.example.com/stream")) =
      some (chars (r"rtsp://cam1.example.com/stream"),
            chars (r"rtsp://cam1.example.com/stream")) ∧
    chars (r"rtsp://cam1.example.com/stream") ≠ [] :=
  ⟨by decide, by decide⟩

/-- C2 amended: a non-skipped line with no space is not rejected; because
find returns npos and npos + 1 wraps to 0, both the sourceURL and the
publishedName handed to session creation are the entire line. -/
theorem C2_no_separator_whole_line (line : List Char)
    (hne : line ≠ []) (hc : headD0 line ≠ '#') (hs : findSpace line = none) :
    processLine line = some (line, line) := by
  simp [processLine, hc, hne, hs]

theorem C2_no_separator_whole_line_witness :
    chars (r"rtsp://solo") ≠ [] ∧ headD0 (chars (r"rtsp://solo")) ≠ '#' ∧
    findSpace (chars (r"rtsp://solo")) = none ∧
    processLine (chars (r"rtsp://solo")) =
      some (chars (r"rtsp://solo"), chars (r"rtsp://solo")) :=
  ⟨by decide, by decide, by decide,
    C2_no_separator_whole_line _ (by decide) (by decide) (by decide)⟩

/-- C3: every line that is empty or starts with the comment mark is skipped
(the check is a total function of the line: on an empty line the front() read
yields the terminating null character of the buffer, which is not the comment
mark, and the line is then caught by the emptiness test), so a file of only
comment and blank lines registers zero sessions. -/
theorem C3_comment_blank_lines_skipped (fileLines : List (List Char))
    (h : ∀ l ∈ fileLines, l = [] ∨ headD0 l = '#') :
    loadSessions fileLines = [] := by
  rw [loadSessions, List.filterMap_eq_nil_iff]
  intro l hl
  rcases h l hl with rfl | hc
  · decide
  · simp [processLine, hc]

theorem C3_comment_blank_lines_skipped_witness :
    (∀ l ∈ [chars (r"# a comment"), ([] : List Char), chars (r"#")],
      l = [] ∨ headD0 l = '#') ∧
    loadSessions [chars (r"# a comment"), ([] : List Char), chars (r"#")] = [] :=
  ⟨by decide, C3_comment_blank_lines_skipped _ (by decide)⟩

end RtspProxy

namespace RtspProxy

/-- C4: the fallback policy of server creation.  The first attempt is always
on the configured port; a second attempt, always on 554, happens exactly when
the first fails and the configured port is not 554; no third attempt exists;
and the process exits with status 1 exactly when every attempt failed — in
particular a failing configured port of 554 exits at once with no further
attempt. -/
theorem C4_port_fallback_policy (bind : Nat → Bool) (p : Nat) :
    (bootstrap bind p).1.head? = some p ∧
    (bootstrap bind p).1.length ≤ 2 ∧
    ((bootstrap bind p).1 = [p, 554] ↔ (bind p = false ∧ p ≠ 554)) ∧
    ((bootstrap bind p).2 = Except.error 1 ↔
      (bind p = false ∧ (p = 554 ∨ bind 554 = false))) ∧
    (bind p = false → p = 554 → (bootstrap bind p).1 = [p] ∧
      (bootstrap bind p).2 = Except.error 1) := by
  by_cases hp : p = 554
  · subst hp
    by_cases hb : bind 554 = true <;> simp [bootstrap, hb]
  · by_cases hb : bind p = true
    · simp [bootstrap, hb, hp]
    · rw [Bool.not_eq_true] at hb
      by_cases h5 : bind 554 = true <;> simp [bootstrap, hb, hp, h5]

/-- C5: when the definition file cannot be opened the process does not fail:
no session is registered, no error status is produced, and execution reaches
the event loop with an empty session set. -/
theorem C5_file_open_failure_nonfatal (bind : Nat → Bool)
    (fs : List Char → Option (List (List Char)))
    (args : List (List Char)) (cfg : Config) (port : Nat)
    (hp : parseArgs args = some cfg)
    (hb : (bootstrap bind cfg.rtspServerPortNum).2 = Except.ok port)
    (hf : fs cfg.filePath = none) :
    runMain bind fs args = Except.ok ⟨port, [], true⟩ := by
  simp [runMain, hp, hb, hf]

theorem C5_file_open_failure_nonfatal_witness :
    parseArgs [chars (r"cams.txt")] = some ⟨0, 554, chars (r"cams.txt")⟩ ∧
    (bootstrap (fun _ => true) 554).2 = Except.ok 554 ∧
    runMain (fun _ => true) (fun _ => none) [chars (r"cams.txt")] =
      Except.ok ⟨554, [], true⟩ :=
  ⟨by decide, rfl,
    C5_file_open_failure_nonfatal (fun _ => true) (fun _ => none)
      [chars (r"cams.txt")] ⟨0, 554, chars (r"cams.txt")⟩ 554 (by decide) rfl rfl⟩

end RtspProxy

namespace RtspProxy

theorem parseLoop_cons (verb port : Nat) (opt : List Char) (rest : List (List Char)) :
    parseLoop verb port (opt :: rest) =
      if headD0 opt ≠ '-' then some (verb, port, opt :: rest)
      else if at1D0 opt = 'v' then parseLoop 1 port rest
      else if at1D0 opt = 'V' then parseLoop 2 port rest
      else if at1D0 opt = 'p' then
        match rest with
        | [] => none
        | t :: rest2 =>
          if headD0 t = '-' then none
          else
            match scanHU t with
            | none => none
            | some v => if 0 < v then parseLoop verb v rest2 else none
      else none := by
  rw [parseLoop.eq_def]

theorem parseLoop_append (verb port : Nat) (v : List (List Char)) (v2 p2 : Nat)
    (rest : List (List Char))
    (h : parseLoop verb port v = some (v2, p2, [])) :
    parseLoop verb port (v ++ rest) = parseLoop v2 p2 rest := by
  induction verb, port, v using parseLoop.induct generalizing v2 p2 with
  | case1 verb port =>
      simp [parseLoop] at h
      simp [parseLoop, h.1, h.2]
  | case2 verb port opt r hne =>
      simp [parseLoop_cons, hne] at h
  | case3 verb port opt r h1 h2 ih =>
      simp [parseLoop_cons, h1, h2] at h ⊢
      exact ih v2 p2 h
  | case4 verb port opt r h1 h2 h3 ih =>
      simp [parseLoop_cons, h1, h2, h3] at h ⊢
      exact ih v2 p2 h
  | case5 verb port opt h1 h2 h3 h4 =>
      simp [parseLoop_cons, h1, h2, h3, h4] at h
  | case6 verb port opt h1 h2 h3 h4 t rest2 h5 =>
      simp [parseLoop_cons, h1, h2, h3, h4, h5] at h
  | case7 verb port opt h1 h2 h3 h4 t rest2 h5 h6 =>
      simp [parseLoop_cons, h1, h2, h3, h4, h5, h6] at h
  | case8 verb port opt h1 h2 h3 h4 t rest2 h5 pv h6 h7 ih =>
      simp [parseLoop_cons, h1, h2, h3, h4, h5, h6, h7] at h ⊢
      exact ih v2 p2 h
  | case9 verb port opt h1 h2 h3 h4 t rest2 h5 pv h6 h7 =>
      simp [parseLoop_cons, h1, h2, h3, h4, h5, h6, h7] at h
  | case10 verb port opt r h1 h2 h3 h4 =>
      simp [parseLoop_cons, h1, h2, h3, h4] at h

theorem vflags_run (v : List (List Char))
    (hv : ∀ a ∈ v, a = chars (r"-v") ∨ a = chars (r"-V")) (verb port : Nat) :
    ∃ vend, parseLoop verb port v = some (vend, port, []) := by
  induction v generalizing verb with
  | nil => exact ⟨verb, by simp [parseLoop]⟩
  | cons a v ih =>
    have hv2 : ∀ x ∈ v, x = chars (r"-v") ∨ x = chars (r"-V") := by
      intro x hx; exact hv x (by simp [hx])
    rcases hv a (by simp) with rfl | rfl
    · obtain ⟨w, hw⟩ := ih hv2 1
      have f1 : headD0 (chars (r"-v")) = '-' := by decide
      have f2 : at1D0 (chars (r"-v")) = 'v' := by decide
      exact ⟨w, by rw [parseLoop_cons]; simp [f1, f2]; exact hw⟩
    · obtain ⟨w, hw⟩ := ih hv2 2
      have g1 : headD0 (chars (r"-V")) = '-' := by decide
      have g2 : at1D0 (chars (r"-V")) ≠ 'v' := by decide
      have g3 : at1D0 (chars (r"-V")) = 'V' := by decide
      exact ⟨w, by rw [parseLoop_cons]; simp [g1, g2, g3]; exact hw⟩

theorem digits_headD0_ne_minus (t : List Char) (ht : t ≠ [])
    (hd : t.all isDigitC = true) : headD0 t ≠ '-' := by
  cases t with
  | nil => exact absurd rfl ht
  | cons c r =>
    simp only [List.all_cons, Bool.and_eq_true] at hd
    simpa [headD0] using isDigitC_ne_minus c hd.1

end RtspProxy

namespace RtspProxy

/-- C6 counterexample: the token 12abc is not a numeric positive integer by
the reading of the spec, yet the parser accepts it (sscanf converts the numeric
prefix 12 and ignores the rest) and produces a Configuration with port 12
instead of terminating with a usage failure. -/
theorem C6_nonnumeric_token_accepted :
    specPosIntToken (chars (r"12abc")) = false ∧
    parseArgs [chars (r"-p"), chars (r"12abc"), chars (r"cams.txt")] =
      some ⟨0, 12, chars (r"cams.txt")⟩ :=
  ⟨by decide, by decide⟩

/-- C6 amended: with a definition-file token following, the -p option causes
a usage failure exactly when its parameter token begins with a dash, fails
the %hu conversion of sscanf (no leading digits after optional white space and
sign), or converts to the 16-bit value 0; a token whose converted value is
positive is accepted even when non-numeric characters trail the digits. -/
theorem C6_port_token_usage_iff (t f : List Char) (hf : headD0 f ≠ '-') :
    parseArgs [chars (r"-p"), t, f] = none ↔
      (headD0 t = '-' ∨ scanHU t = none ∨ scanHU t = some 0) := by
  have e1 : headD0 (chars (r"-p")) = '-' := by decide
  have e2 : at1D0 (chars (r"-p")) ≠ 'v' := by decide
  have e3 : at1D0 (chars (r"-p")) ≠ 'V' := by decide
  have e4 : at1D0 (chars (r"-p")) = 'p' := by decide
  by_cases ht : headD0 t = '-'
  · simp [parseArgs, parseLoop_cons, e1, e2, e3, e4, ht]
  · cases hs : scanHU t with
    | none => simp [parseArgs, parseLoop_cons, e1, e2, e3, e4, ht, hs]
    | some v =>
      by_cases hv : 0 < v
      · have hvne : v ≠ 0 := by omega
        simp [parseArgs, parseLoop_cons, e1, e2, e3, e4, ht, hs, hv, hf, hvne]
      · have hv0 : v = 0 := by omega
        subst hv0
        simp [parseArgs, parseLoop_cons, e1, e2, e3, e4, ht, hs]

theorem C6_port_token_usage_iff_witness :
    headD0 (chars (r"cams2.txt")) ≠ '-' ∧
    scanHU (chars (r"abc")) = none ∧
    parseArgs [chars (r"-p"), chars (r"abc"), chars (r"cams2.txt")] = none :=
  ⟨by decide, by decide,
    (C6_port_token_usage_iff (chars (r"abc")) (chars (r"cams2.txt"))
      (by decide)).mpr (Or.inr (Or.inl (by decide)))⟩

/-- C7: any well-formed argument vector — verbosity flags in any mix around a
-p option whose token is the decimal numeral of a positive n at most 65535,
followed by a definition-file token — parses to a Configuration whose
rtspServerPortNum is exactly n. -/
theorem C7_port_in_range_parsed (v1 v2 : List (List Char)) (t f : List Char)
    (n : Nat)
    (hv1 : ∀ a ∈ v1, a = chars (r"-v") ∨ a = chars (r"-V"))
    (hv2 : ∀ a ∈ v2, a = chars (r"-v") ∨ a = chars (r"-V"))
    (ht : t ≠ []) (hd : t.all isDigitC = true) (hn : digitsToNat t = n)
    (h1 : 0 < n) (h2 : n ≤ 65535) (hf : headD0 f ≠ '-') :
    ∃ verb, parseArgs (v1 ++ chars (r"-p") :: t :: (v2 ++ [f])) =
      some ⟨verb, n, f⟩ := by
  subst hn
  have e1 : headD0 (chars (r"-p")) = '-' := by decide
  have e2 : at1D0 (chars (r"-p")) ≠ 'v' := by decide
  have e3 : at1D0 (chars (r"-p")) ≠ 'V' := by decide
  have e4 : at1D0 (chars (r"-p")) = 'p' := by decide
  have hmt := digits_headD0_ne_minus t ht hd
  have hscan : scanHU t = some (digitsToNat t) := by
    rw [scanHU_digits t ht hd, Nat.mod_eq_of_lt (by omega)]
  obtain ⟨a, ha⟩ := vflags_run v1 hv1 0 554
  obtain ⟨b, hb⟩ := vflags_run v2 hv2 a (digitsToNat t)
  have hloop : parseLoop 0 554 (v1 ++ chars (r"-p") :: t :: (v2 ++ [f])) =
      some (b, digitsToNat t, [f]) := by
    rw [parseLoop_append 0 554 v1 a 554 _ ha, parseLoop_cons]
    simp [e1, e2, e3, e4, hmt, hscan, h1]
    rw [parseLoop_append a (digitsToNat t) v2 b (digitsToNat t) _ hb,
      parseLoop_cons]
    simp [hf]
  refine ⟨b, ?_⟩
  have hne : v1 ++ chars (r"-p") :: t :: (v2 ++ [f]) ≠ [] := by
    cases v1 <;> simp
  simp [parseArgs, hne, hloop]

theorem C7_port_in_range_parsed_witness :
    chars (r"8554") ≠ [] ∧ (chars (r"8554")).all isDigitC = true ∧
    digitsToNat (chars (r"8554")) = 8554 ∧
    headD0 (chars (r"cams7.txt")) ≠ '-' ∧
    (∃ verb, parseArgs [chars (r"-v"), chars (r"-p"), chars (r"8554"),
      chars (r"cams7.txt")] = some ⟨verb, 8554, chars (r"cams7.txt")⟩) :=
  ⟨by decide, by decide, by decide, by decide,
    C7_port_in_range_parsed [chars (r"-v")] [] (chars (r"8554"))
      (chars (r"cams7.txt")) 8554 (by decide) (by decide) (by decide)
      (by decide) (by decide) (by decide) (by decide) (by decide)⟩

/-- C9: when the consumed flags are followed by a non-flag token and then any
further tokens, parsing succeeds, the first non-flag token becomes the
definition-file path, and the extra tokens change nothing: the result is the
same as if they were absent. -/
theorem C9_extra_tokens_ignored (v : List (List Char)) (f : List Char)
    (rest : List (List Char)) (a b : Nat)
    (hv : parseLoop 0 554 v = some (a, b, []))
    (hf : headD0 f ≠ '-') :
    parseArgs (v ++ f :: rest) = some ⟨a, b, f⟩ ∧
    parseArgs (v ++ f :: rest) = parseArgs (v ++ [f]) := by
  have hloop : ∀ r : List (List Char),
      parseLoop 0 554 (v ++ f :: r) = some (a, b, f :: r) := by
    intro r
    rw [parseLoop_append 0 554 v a b _ hv, parseLoop_cons, if_pos hf]
  constructor
  · have hne : v ++ f :: rest ≠ [] := by cases v <;> simp
    simp [parseArgs, hne, hloop rest]
  · have hne1 : v ++ f :: rest ≠ [] := by cases v <;> simp
    have hne2 : v ++ [f] ≠ [] := by cases v <;> simp
    simp [parseArgs, hne1, hne2, hloop rest, hloop []]

theorem C9_extra_tokens_ignored_witness :
    parseLoop 0 554 [chars (r"-v")] = some (1, 554, []) ∧
    headD0 (chars (r"list.txt")) ≠ '-' ∧
    parseArgs [chars (r"-v"), chars (r"list.txt"), chars (r"x1"), chars (r"x2")] =
      some ⟨1, 554, chars (r"list.txt")⟩ :=
  ⟨by decide, by decide,
    (C9_extra_tokens_ignored [chars (r"-v")] (chars (r"list.txt"))
      [chars (r"x1"), chars (r"x2")] 1 554 (by decide) (by decide)).1⟩

/-- C10: a -p token whose decimal value n exceeds 65535 is not rejected as
too large: the %hu conversion of sscanf stores n modulo 65536, the parse succeeds
with that residue as the port whenever the residue is positive, and a usage
failure occurs exactly when the residue is 0. -/
theorem C10_port_wraparound (t f : List Char) (n : Nat)
    (ht : t ≠ []) (hd : t.all isDigitC = true) (hn : digitsToNat t = n)
    (hbig : 65535 < n) (hf : headD0 f ≠ '-') :
    (0 < n % 65536 →
      parseArgs [chars (r"-p"), t, f] = some ⟨0, n % 65536, f⟩) ∧
    (n % 65536 = 0 → parseArgs [chars (r"-p"), t, f] = none) := by
  subst hn
  have e1 : headD0 (chars (r"-p")) = '-' := by decide
  have e2 : at1D0 (chars (r"-p")) ≠ 'v' := by decide
  have e3 : at1D0 (chars (r"-p")) ≠ 'V' := by decide
  have e4 : at1D0 (chars (r"-p")) = 'p' := by decide
  have hmt := digits_headD0_ne_minus t ht hd
  have hscan : scanHU t = some (digitsToNat t % 65536) := scanHU_digits t ht hd
  constructor
  · intro hpos
    simp [parseArgs, parseLoop_cons, e1, e2, e3, e4, hmt, hscan, hpos, hf]
  · intro hzero
    simp [parseArgs, parseLoop_cons, e1, e2, e3, e4, hmt, hscan, hzero]

theorem C10_port_wraparound_witness :
    chars (r"65537") ≠ [] ∧ (chars (r"65537")).all isDigitC = true ∧
    digitsToNat (chars (r"65537")) = 65537 ∧ 65535 < 65537 ∧
    headD0 (chars (r"cams10.txt")) ≠ '-' ∧
    parseArgs [chars (r"-p"), chars (r"65537"), chars (r"cams10.txt")] =
      some ⟨0, 1, chars (r"cams10.txt")⟩ :=
  ⟨by decide, by decide, by decide, by decide, by decide,
    (C10_port_wraparound (chars (r"65537")) (chars (r"cams10.txt")) 65537
      (by decide) (by decide) (by decide) (by decide) (by decide)).1 (by decide)⟩

end RtspProxy

namespace RtspProxy

theorem onlyFlagTokens_cons (a : List Char) (rest : List (List Char)) :
    onlyFlagTokens (a :: rest) =
      (decide (headD0 a = '-') &&
        (if at1D0 a = 'p' then
          match rest with
          | [] => true
          | t :: rest2 =>
            if headD0 t = '-' then onlyFlagTokens (t :: rest2)
            else onlyFlagTokens rest2
        else onlyFlagTokens rest)) := by
  rw [onlyFlagTokens.eq_def]

theorem parseLoop_onlyFlags : ∀ (args : List (List Char)),
    onlyFlagTokens args = true → ∀ verb port : Nat,
    parseLoop verb port args = none ∨
      ∃ v2 p2, parseLoop verb port args = some (v2, p2, [])
  | [], _, verb, port => Or.inr ⟨verb, port, by simp [parseLoop]⟩
  | a :: rest, h, verb, port => by
    rw [onlyFlagTokens_cons, Bool.and_eq_true, decide_eq_true_eq] at h
    obtain ⟨ha, hrest⟩ := h
    rw [parseLoop_cons, if_neg (by simp [ha])]
    by_cases hv : at1D0 a = 'v'
    · rw [if_pos hv]
      exact parseLoop_onlyFlags rest (by simpa [hv] using hrest) 1 port
    · rw [if_neg hv]
      by_cases hV : at1D0 a = 'V'
      · rw [if_pos hV]
        exact parseLoop_onlyFlags rest (by simpa [hv, hV] using hrest) 2 port
      · rw [if_neg hV]
        by_cases hp : at1D0 a = 'p'
        · rw [if_pos hp]
          cases rest with
          | nil => exact Or.inl rfl
          | cons t rest2 =>
            by_cases htd : headD0 t = '-'
            · exact Or.inl (by simp [htd])
            · cases hs : scanHU t with
              | none => exact Or.inl (by simp [htd, hs])
              | some v =>
                by_cases hvp : 0 < v
                · have hr2 : onlyFlagTokens rest2 = true := by
                    simpa [hp, htd] using hrest
                  have := parseLoop_onlyFlags rest2 hr2 verb v
                  simpa [htd, hs, hvp] using this
                · exact Or.inl (by simp [htd, hs, hvp])
        · rw [if_neg hp]
          exact Or.inl rfl

/-- C8: an argument vector with no definition-file token — empty, or made up
solely of flag tokens and their parameters — never yields a Configuration:
parsing ends in usage failure (process exit status 1). -/
theorem C8_missing_file_usage (args : List (List Char))
    (h : onlyFlagTokens args = true) : parseArgs args = none := by
  cases args with
  | nil => rfl
  | cons a rest =>
    rcases parseLoop_onlyFlags (a :: rest) h 0 554 with hn | ⟨v2, p2, hs⟩
    · simp [parseArgs, hn]
    · simp [parseArgs, hs]

theorem C8_missing_file_usage_witness :
    onlyFlagTokens [chars (r"-v"), chars (r"-p"), chars (r"8554")] = true ∧
    parseArgs [chars (r"-v"), chars (r"-p"), chars (r"8554")] = none :=
  ⟨by decide, C8_missing_file_usage _ (by decide)⟩

end RtspProxy

namespace RtspProxy

theorem C4_port_fallback_policy_witness :
    (bootstrap (fun _ => false) 554).1 = [554] ∧
    (bootstrap (fun _ => false) 554).2 = Except.error 1 :=
  (C4_port_fallback_policy (fun _ => false) 554).2.2.2.2 rfl rfl

end RtspProxy
